import Mathlib

/-!
Shallow embedding of the wetware/membrane bundle crate
(`crates/bundle/src/{access,revocation,grant}.rs` and the membrane-core
crate), together with theorems settling the frozen claims about it.

Modelling conventions:
* Rust `u64` values become `Nat` (no arithmetic is performed on them, so
  wrap-around never arises).
* `capnp::Error::failed(msg)` becomes `RpcError.failed msg`, a record of the
  description string (the kind is always `Failed` in this crate).
* The shared mutable state is passed explicitly: the `watch` channel behind an
  `EpochGuard`'s receiver is modelled by handing the currently observed
  `Epoch` to `check`, and the `Arc<AtomicBool>` revocation latch is modelled
  by handing its current Boolean value to `check` / `revoke` / `is_revoked`.
  All clones of a `RevocationGuard` read the same latch, so a clone is not a
  separate value in the model; `RevocationGuard`/`RevocationHandle` method
  names are kept as namespaced functions over the latch state.
* Asynchronous dispatch (`Promise::from_future`) is collapsed to the value it
  resolves to: a `BundleSimulator` is a function returning
  `Except RpcError SimResult`.
-/

namespace Membrane

/-- Mirror of `capnp::Error` as produced by `Error::failed(description)`. -/
structure RpcError where
  description : String
deriving Repr, DecidableEq

/-- Mirror of `capnp::Error::failed`. -/
def RpcError.failed (msg : String) : RpcError :=
  { description := msg }

/-- Epoch from membrane-core (`Epoch { seq, head, adopted_block }`), as used by
the tests in `access.rs`. `head` is an opaque byte identifier. -/
structure Epoch where
  seq : Nat
  head : List Nat
  adopted_block : Nat
deriving Repr, DecidableEq

/-- EpochGuard from membrane-core: `issued_seq` fixed at mint time plus a live
receiver of the current `Epoch`; the receiver is modelled by passing the
currently observed epoch to `check`. -/
structure EpochGuard where
  issued_seq : Nat
deriving Repr, DecidableEq

/-- The staleEpoch error value carrying the issued and current sequences. -/
def staleEpochMsg (issued current : Nat) : RpcError :=
  RpcError.failed ("staleEpoch: issued " ++ toString issued ++ " current " ++ toString current)

/-- Modelled from the spec: `EpochGuard::check` lives in membrane-core's
`epoch.rs`, which is not under `src/` (only its declaration in `lib.rs` and its
uses in `access.rs`/`grant.rs` are). Spec contract: fails with a
staleEpoch-tagged `StaleEpoch(issued, current)` error whenever the currently
observed epoch sequence differs from the sequence recorded at mint time, in
either direction; valid iff `current.seq == issued_seq`; read-only. -/
def EpochGuard.check (g : EpochGuard) (current : Epoch) : Except RpcError Unit :=
  if current.seq = g.issued_seq then Except.ok ()
  else Except.error (staleEpochMsg g.issued_seq current.seq)

/-- The revocation latch: current value of the shared `Arc<AtomicBool>`. -/
abbrev Latch := Bool

/-- Mirror of `RevocationGuard::new`: the fresh latch starts out `false`; the
returned handle and guard (and every later clone of the guard) all share it. -/
def RevocationGuard.new : Latch := false

/-- The revoked error value (`Error::failed` text from `revocation.rs`). -/
def revokedMsg : RpcError :=
  RpcError.failed "revoked: bundle grant has been revoked"

/-- Mirror of `RevocationGuard::check` (`revocation.rs`): errors once the
shared latch is set, succeeds otherwise. -/
def RevocationGuard.check (revoked : Latch) : Except RpcError Unit :=
  if revoked then Except.error revokedMsg
  else Except.ok ()

/-- Mirror of `RevocationHandle::revoke` (`revocation.rs`): stores `true` into
the shared latch whatever its previous value. -/
def RevocationHandle.revoke (_revoked : Latch) : Latch := true

/-- Mirror of `RevocationHandle.is_revoked` (`revocation.rs`): reads the latch. -/
def RevocationHandle.is_revoked (revoked : Latch) : Bool := revoked

/-- BlockWindowGuard from `access.rs`. -/
structure BlockWindowGuard where
  valid_from : Nat
  valid_until : Nat
deriving Repr, DecidableEq

/-- The blockOutOfWindow error value (`Error::failed` text from `access.rs`). -/
def blockOutOfWindowMsg (target valid_from valid_until : Nat) : RpcError :=
  RpcError.failed ("blockOutOfWindow: target " ++ toString target ++ " not in ["
    ++ toString valid_from ++ ", " ++ toString valid_until ++ "]")

/-- Mirror of `BlockWindowGuard::check` (`access.rs`): errors when the target
is below `valid_from` or above `valid_until`, succeeds otherwise. -/
def BlockWindowGuard.check (g : BlockWindowGuard) (target_block : Nat) : Except RpcError Unit :=
  if target_block < g.valid_from ∨ target_block > g.valid_until then
    Except.error (blockOutOfWindowMsg target_block g.valid_from g.valid_until)
  else Except.ok ()

/-- BundleSpec from `access.rs`: the raw transactions, held server-side. -/
structure BundleSpec where
  txs : List (List Nat)
deriving Repr, DecidableEq

/-- SimResult from `access.rs`. -/
structure SimResult where
  gas_used : Nat
  success : Bool
  state_root : List Nat
  revert_reason : String
deriving Repr, DecidableEq

/-- The `BundleSimulator` trait: anything mapping a bundle and target block to
a simulation outcome (the returned future collapsed to its resolution). -/
def BundleSimulator : Type :=
  BundleSpec → Nat → Except RpcError SimResult

/-- BundleAccessServer from `access.rs`. Its `revocation_guard` field is a
clone of the shared latch reference, so in the model the latch's current value
is passed to each method call instead of being stored here. -/
structure BundleAccessServer where
  epoch_guard : EpochGuard
  block_window : BlockWindowGuard
  bundle : BundleSpec
  simulator : BundleSimulator

/-- Mirror of `BundleAccessServer::check_all` (`access.rs`): epoch guard, then
revocation guard, then block-window guard, propagating the first error. -/
def BundleAccessServer.check_all (s : BundleAccessServer) (current : Epoch)
    (revoked : Latch) (target_block : Nat) : Except RpcError Unit := do
  s.epoch_guard.check current
  RevocationGuard.check revoked
  s.block_window.check target_block

/-- Wire results of the `simulate` RPC method. -/
structure SimulateResults where
  gas_used : Nat
  success : Bool
  state_root : List Nat
  revert_reason : String
deriving Repr, DecidableEq

/-- Wire results of the `include` RPC method. -/
structure IncludeResults where
  included : Bool
deriving Repr, DecidableEq

/-- Mirror of `BundleAccessServer::simulate` (`access.rs`): run `check_all`,
then dispatch the owned bundle and target block to the simulator and copy the
four result fields into the response; any error is propagated. -/
def BundleAccessServer.simulate (s : BundleAccessServer) (current : Epoch)
    (revoked : Latch) (target_block : Nat) : Except RpcError SimulateResults := do
  s.check_all current revoked target_block
  let sim ← s.simulator s.bundle target_block
  pure { gas_used := sim.gas_used, success := sim.success,
         state_root := sim.state_root, revert_reason := sim.revert_reason }

/-- Mirror of `BundleAccessServer::include` (`access.rs`; `include` is a Lean
keyword, hence the name): run `check_all`, then set `included = true`. -/
def BundleAccessServer.includeBlock (s : BundleAccessServer) (current : Epoch)
    (revoked : Latch) (target_block : Nat) : Except RpcError IncludeResults := do
  s.check_all current revoked target_block
  pure { included := true }

/-- The BundleGrant wire struct built during `graft()`: three data fields plus
the bundle-access capability. On the wire the capability is carried as a
reference into the capability table, not as serialized data. -/
structure BundleGrant where
  valid_from_block : Nat
  valid_until_block : Nat
  builder_pubkey : List Nat
  bundle_access : BundleAccessServer

/-- The builder-visible data fields of the grant: everything the wire schema
serializes as data (the capability slot carries only an opaque reference). -/
def BundleGrant.wireFields (g : BundleGrant) : Nat × Nat × List Nat :=
  (g.valid_from_block, g.valid_until_block, g.builder_pubkey)

/-- BundleGrantBuilder from `grant.rs`. Its `revocation_guard` field is a
clone of the shared latch reference (see `BundleAccessServer`). -/
structure BundleGrantBuilder where
  bundle : BundleSpec
  valid_from : Nat
  valid_until : Nat
  builder_pubkey : List Nat
  simulator : BundleSimulator

/-- Mirror of `BundleGrantBuilder::build` (`grant.rs`): writes the window and
pubkey into the grant, mints a `BundleAccessServer` from the supplied epoch
guard plus this builder's window, bundle and simulator, and installs it as the
grant's capability. -/
def BundleGrantBuilder.build (b : BundleGrantBuilder) (guard : EpochGuard) : BundleGrant :=
  { valid_from_block := b.valid_from,
    valid_until_block := b.valid_until,
    builder_pubkey := b.builder_pubkey,
    bundle_access :=
      { epoch_guard := guard,
        block_window := { valid_from := b.valid_from, valid_until := b.valid_until },
        bundle := b.bundle,
        simulator := b.simulator } }

/-- MembraneServer from membrane-core, specialized to the bundle grant
extension: holds the extension builder (the epoch receiver is modelled by
passing the current epoch to `graft`). -/
structure MembraneServer where
  grant_builder : BundleGrantBuilder

/-- Modelled from the spec: `MembraneServer::graft` lives in membrane-core's
`membrane.rs`, which is not under `src/`. Spec contract: each call takes the
current epoch snapshot, derives a new `EpochGuard` with
`issued_seq = current.seq`, and invokes the extension builder with that guard
to populate the session. -/
def MembraneServer.graft (m : MembraneServer) (current : Epoch) : BundleGrant :=
  m.grant_builder.build { issued_seq := current.seq }

/-- Mirror of `bundle_membrane` (`grant.rs`): mints a fresh revocation pair,
wraps the grant builder in a `MembraneServer`, and returns the handle's latch
together with the membrane. No validation of the window is performed. -/
def bundle_membrane (bundle : BundleSpec) (valid_from valid_until : Nat)
    (builder_pubkey : List Nat) (simulator : BundleSimulator) :
    Latch × MembraneServer :=
  (RevocationGuard.new,
   { grant_builder :=
      { bundle := bundle,
        valid_from := valid_from,
        valid_until := valid_until,
        builder_pubkey := builder_pubkey,
        simulator := simulator } })

/-- An error value carries the given tag as a string prefix of its message. -/
def taggedWith (tag : String) (e : RpcError) : Prop :=
  ∃ rest, e.description = tag ++ rest

/-- The mock simulator of the `access.rs` tests: 21000 gas, success, a
32-byte 0xab state root, empty revert reason. -/
def mockSimulator : BundleSimulator :=
  fun _ _ => Except.ok
    { gas_used := 21000, success := true,
      state_root := List.replicate 32 171, revert_reason := "" }

/-- The epoch fixture of the `access.rs` tests. -/
def testEpoch (seq : Nat) : Epoch :=
  { seq := seq, head := [], adopted_block := 100 }

/-- The server fixture of the `access.rs` tests: issued at seq 1, window
one hundred to one hundred ten, one two-byte transaction, mock simulator. -/
def testServer : BundleAccessServer :=
  { epoch_guard := { issued_seq := 1 },
    block_window := { valid_from := 100, valid_until := 110 },
    bundle := { txs := [[1, 2]] },
    simulator := mockSimulator }

/-- Claim C2: `EpochGuard.check` succeeds iff the currently observed epoch
sequence equals the sequence recorded at mint time, and whenever they differ in
either direction it fails with the staleEpoch error carrying both sequences. -/
theorem c2_epoch_guard_valid_iff_seq_eq (g : EpochGuard) (current : Epoch) :
    (g.check current = Except.ok () ↔ current.seq = g.issued_seq) ∧
    (current.seq ≠ g.issued_seq →
      g.check current = Except.error (staleEpochMsg g.issued_seq current.seq)) := by
  constructor
  · rw [EpochGuard.check]
    split <;> simp_all
  · intro h
    rw [EpochGuard.check, if_neg h]

/-- Claim C2 witness: a guard issued at seq 1 observed at seq 2 (advance) fails
with the staleEpoch error, and at seq 1 succeeds. -/
theorem c2_epoch_guard_valid_iff_seq_eq_witness :
    EpochGuard.check { issued_seq := 1 } (testEpoch 2)
      = Except.error (staleEpochMsg 1 2) ∧
    EpochGuard.check { issued_seq := 1 } (testEpoch 1) = Except.ok () := by
  refine ⟨(c2_epoch_guard_valid_iff_seq_eq { issued_seq := 1 } (testEpoch 2)).2 (by decide), ?_⟩
  exact (c2_epoch_guard_valid_iff_seq_eq { issued_seq := 1 } (testEpoch 1)).1.mpr (by decide)

/-- Claim C3: the revocation latch is one-way and shared: a fresh latch passes
`check`; `revoke` sets the latch to true from any state, after which `check`
(on every clone, since all clones read the same latch value) fails with the
revoked error; and however many further `revoke` calls follow, the latch stays
true and `check` keeps failing — the latch never returns to false. -/
theorem c3_revocation_latch_one_way :
    RevocationGuard.check RevocationGuard.new = Except.ok () ∧
    (∀ latch : Latch, RevocationHandle.revoke latch = true) ∧
    (∀ latch : Latch,
      RevocationGuard.check (RevocationHandle.revoke latch) = Except.error revokedMsg) ∧
    (∀ (n : Nat) (latch : Latch),
      (RevocationHandle.revoke)^[n + 1] latch = true ∧
      RevocationGuard.check ((RevocationHandle.revoke)^[n + 1] latch)
        = Except.error revokedMsg) := by
  refine ⟨rfl, fun _ => rfl, fun _ => rfl, fun n latch => ?_⟩
  have h : (RevocationHandle.revoke)^[n + 1] latch = true := by
    rw [Function.iterate_succ_apply']
    rfl
  exact ⟨h, by rw [h]; rfl⟩

/-- Claim C4: `BlockWindowGuard.check` fails with the blockOutOfWindow error
iff the target is below `valid_from` or above `valid_until`; both bounds are
inclusive (for window 100..110 the checks at 100 and 110 succeed and at 99 and
111 fail). Purity is structural: `check` is a function of the guard and the
target alone, with no state. -/
theorem c4_block_window_inclusive (g : BlockWindowGuard) (target_block : Nat) :
    (g.check target_block
        = Except.error (blockOutOfWindowMsg target_block g.valid_from g.valid_until)
      ↔ (target_block < g.valid_from ∨ target_block > g.valid_until)) ∧
    (g.check target_block = Except.ok ()
      ↔ (g.valid_from ≤ target_block ∧ target_block ≤ g.valid_until)) ∧
    BlockWindowGuard.check { valid_from := 100, valid_until := 110 } 100 = Except.ok () ∧
    BlockWindowGuard.check { valid_from := 100, valid_until := 110 } 110 = Except.ok () ∧
    BlockWindowGuard.check { valid_from := 100, valid_until := 110 } 99
      = Except.error (blockOutOfWindowMsg 99 100 110) ∧
    BlockWindowGuard.check { valid_from := 100, valid_until := 110 } 111
      = Except.error (blockOutOfWindowMsg 111 100 110) := by
  refine ⟨?_, ?_, rfl, rfl, rfl, rfl⟩
  · rw [BlockWindowGuard.check]
    split <;> simp_all
  · rw [BlockWindowGuard.check]
    split <;> simp_all
    omega

/-- Claim C7: `revoke` is idempotent: for every latch state, calling it n ≥ 1
times leaves exactly the state one call leaves, and `is_revoked` and every
cloned guard's `check` (all clones read the same latch value) agree between
the n-call and one-call states; the repeated calls change nothing further. -/
theorem c7_revoke_idempotent (n : Nat) (latch : Latch) (h : 1 ≤ n) :
    (RevocationHandle.revoke)^[n] latch = RevocationHandle.revoke latch ∧
    RevocationHandle.is_revoked ((RevocationHandle.revoke)^[n] latch)
      = RevocationHandle.is_revoked (RevocationHandle.revoke latch) ∧
    RevocationGuard.check ((RevocationHandle.revoke)^[n] latch)
      = RevocationGuard.check (RevocationHandle.revoke latch) := by
  obtain ⟨m, rfl⟩ := Nat.exists_eq_add_of_le h
  have key : (RevocationHandle.revoke)^[1 + m] latch = RevocationHandle.revoke latch := by
    rw [Nat.add_comm, Function.iterate_succ_apply']
    rfl
  exact ⟨key, by rw [key], by rw [key]⟩

/-- Claim C7 witness: three revocations of a fresh latch leave the same latch,
`is_revoked` value and guard-check outcome as a single revocation. -/
theorem c7_revoke_idempotent_witness :
    (RevocationHandle.revoke)^[3] false = RevocationHandle.revoke false ∧
    RevocationHandle.is_revoked ((RevocationHandle.revoke)^[3] false)
      = RevocationHandle.is_revoked (RevocationHandle.revoke false) ∧
    RevocationGuard.check ((RevocationHandle.revoke)^[3] false)
      = RevocationGuard.check (RevocationHandle.revoke false) :=
  c7_revoke_idempotent 3 false (by decide)

/-- Claim C9: the builder-visible grant data fields written by
`BundleGrantBuilder.build` (validity window and builder pubkey; the capability
slot is an opaque reference) are independent of the bundle's transactions: two
builds differing only in the bundle produce identical wire field values. -/
theorem c9_grant_fields_independent_of_txs (b : BundleGrantBuilder)
    (t1 t2 : BundleSpec) (guard : EpochGuard) :
    BundleGrant.wireFields (BundleGrantBuilder.build { b with bundle := t1 } guard)
      = BundleGrant.wireFields (BundleGrantBuilder.build { b with bundle := t2 } guard) :=
  rfl

/-- Helper: the guard chain surfaces the staleEpoch error whenever the
observed sequence differs from the issued one, whatever the other guards say. -/
theorem check_all_stale (s : BundleAccessServer) (current : Epoch) (revoked : Latch)
    (tb : Nat) (h : current.seq ≠ s.epoch_guard.issued_seq) :
    s.check_all current revoked tb
      = Except.error (staleEpochMsg s.epoch_guard.issued_seq current.seq) := by
  simp [BundleAccessServer.check_all, EpochGuard.check, h, Bind.bind, Except.bind]

/-- Helper: with a current epoch, a set latch surfaces the revoked error. -/
theorem check_all_revoked (s : BundleAccessServer) (current : Epoch) (tb : Nat)
    (h1 : current.seq = s.epoch_guard.issued_seq) :
    s.check_all current true tb = Except.error revokedMsg := by
  simp [BundleAccessServer.check_all, EpochGuard.check, RevocationGuard.check, h1,
    Bind.bind, Except.bind]

/-- Helper: with a current epoch and unset latch, an out-of-window target
surfaces the blockOutOfWindow error. -/
theorem check_all_window (s : BundleAccessServer) (current : Epoch) (tb : Nat)
    (h1 : current.seq = s.epoch_guard.issued_seq)
    (h3 : tb < s.block_window.valid_from ∨ tb > s.block_window.valid_until) :
    s.check_all current false tb
      = Except.error (blockOutOfWindowMsg tb s.block_window.valid_from s.block_window.valid_until) := by
  simp [BundleAccessServer.check_all, EpochGuard.check, RevocationGuard.check,
    BlockWindowGuard.check, h1, h3, Bind.bind, Except.bind]

/-- Helper: with a current epoch, unset latch and in-window target the guard
chain passes. -/
theorem check_all_ok (s : BundleAccessServer) (current : Epoch) (tb : Nat)
    (h1 : current.seq = s.epoch_guard.issued_seq)
    (h3 : ¬(tb < s.block_window.valid_from ∨ tb > s.block_window.valid_until)) :
    s.check_all current false tb = Except.ok () := by
  simp [BundleAccessServer.check_all, EpochGuard.check, RevocationGuard.check,
    BlockWindowGuard.check, h1, h3, Bind.bind, Except.bind]

/-- Helper: a guard-chain failure is the terminal result of `simulate`; the
simulator is never consulted. -/
theorem simulate_propagates_guard_error (s : BundleAccessServer) (current : Epoch)
    (revoked : Latch) (tb : Nat) (e : RpcError)
    (h : s.check_all current revoked tb = Except.error e) :
    s.simulate current revoked tb = Except.error e := by
  simp [BundleAccessServer.simulate, h, Bind.bind, Except.bind]

/-- Helper: a guard-chain failure is the terminal result of `include`. -/
theorem includeBlock_propagates_guard_error (s : BundleAccessServer) (current : Epoch)
    (revoked : Latch) (tb : Nat) (e : RpcError)
    (h : s.check_all current revoked tb = Except.error e) :
    s.includeBlock current revoked tb = Except.error e := by
  simp [BundleAccessServer.includeBlock, h, Bind.bind, Except.bind]

/-- Helper: the staleEpoch tag is a string prefix of the staleEpoch message. -/
theorem staleEpochMsg_tagged (issued current : Nat) :
    taggedWith "staleEpoch" (staleEpochMsg issued current) := by
  refine ⟨": issued " ++ toString issued ++ " current " ++ toString current, ?_⟩
  have h : "staleEpoch: issued " = "staleEpoch" ++ ": issued " := by decide
  simp [staleEpochMsg, RpcError.failed, String.append_assoc]
  rw [h, String.append_assoc]

/-- Helper: the revoked tag is a string prefix of the revoked message. -/
theorem revokedMsg_tagged : taggedWith "revoked" revokedMsg :=
  ⟨": bundle grant has been revoked", by decide⟩

/-- Helper: the blockOutOfWindow tag is a string prefix of the window message. -/
theorem blockOutOfWindowMsg_tagged (t a b : Nat) :
    taggedWith "blockOutOfWindow" (blockOutOfWindowMsg t a b) := by
  refine ⟨": target " ++ toString t ++ " not in [" ++ toString a ++ ", " ++ toString b ++ "]", ?_⟩
  have h : "blockOutOfWindow: target " = "blockOutOfWindow" ++ ": target " := by decide
  simp [blockOutOfWindowMsg, RpcError.failed, String.append_assoc]
  rw [h, String.append_assoc]

/-- Claim C1: both methods run the composite check in the fixed order epoch →
revocation → block window, stopping at the first failure: a stale epoch
surfaces the staleEpoch error whatever the latch and target (in particular
when all three conditions are violated at once); a current epoch with a set
latch surfaces the revoked error whatever the target; only with a current
epoch and unset latch does the window error surface; and any guard-chain
failure is the terminal result of `simulate` and `include`, reached before any
business effect. -/
theorem c1_guard_chain_fixed_order (s : BundleAccessServer) (current : Epoch)
    (revoked : Latch) (tb : Nat) :
    (current.seq ≠ s.epoch_guard.issued_seq →
      s.check_all current revoked tb
          = Except.error (staleEpochMsg s.epoch_guard.issued_seq current.seq) ∧
      s.simulate current revoked tb
          = Except.error (staleEpochMsg s.epoch_guard.issued_seq current.seq) ∧
      s.includeBlock current revoked tb
          = Except.error (staleEpochMsg s.epoch_guard.issued_seq current.seq)) ∧
    (current.seq = s.epoch_guard.issued_seq → revoked = true →
      s.check_all current revoked tb = Except.error revokedMsg ∧
      s.simulate current revoked tb = Except.error revokedMsg ∧
      s.includeBlock current revoked tb = Except.error revokedMsg) ∧
    (current.seq = s.epoch_guard.issued_seq → revoked = false →
      (tb < s.block_window.valid_from ∨ tb > s.block_window.valid_until) →
      s.check_all current revoked tb
          = Except.error (blockOutOfWindowMsg tb s.block_window.valid_from s.block_window.valid_until) ∧
      s.simulate current revoked tb
          = Except.error (blockOutOfWindowMsg tb s.block_window.valid_from s.block_window.valid_until) ∧
      s.includeBlock current revoked tb
          = Except.error (blockOutOfWindowMsg tb s.block_window.valid_from s.block_window.valid_until)) ∧
    (∀ e : RpcError, s.check_all current revoked tb = Except.error e →
      s.simulate current revoked tb = Except.error e ∧
      s.includeBlock current revoked tb = Except.error e) := by
  refine ⟨fun h => ?_, fun h1 h2 => ?_, fun h1 h2 h3 => ?_, fun e h => ?_⟩
  · have hc := check_all_stale s current revoked tb h
    exact ⟨hc, simulate_propagates_guard_error _ _ _ _ _ hc,
      includeBlock_propagates_guard_error _ _ _ _ _ hc⟩
  · subst h2
    have hc := check_all_revoked s current tb h1
    exact ⟨hc, simulate_propagates_guard_error _ _ _ _ _ hc,
      includeBlock_propagates_guard_error _ _ _ _ _ hc⟩
  · subst h2
    have hc := check_all_window s current tb h1 h3
    exact ⟨hc, simulate_propagates_guard_error _ _ _ _ _ hc,
      includeBlock_propagates_guard_error _ _ _ _ _ hc⟩
  · exact ⟨simulate_propagates_guard_error _ _ _ _ _ h,
      includeBlock_propagates_guard_error _ _ _ _ _ h⟩

/-- Claim C1 witness: on the test server (issued at seq 1, window 100..110)
with the epoch advanced to seq 2, the latch set, and target 200 all violated
at once, the surfaced error of the chain and of both methods is the
staleEpoch error. -/
theorem c1_guard_chain_fixed_order_witness :
    testServer.check_all (testEpoch 2) true 200 = Except.error (staleEpochMsg 1 2) ∧
    testServer.simulate (testEpoch 2) true 200 = Except.error (staleEpochMsg 1 2) ∧
    testServer.includeBlock (testEpoch 2) true 200 = Except.error (staleEpochMsg 1 2) :=
  (c1_guard_chain_fixed_order testServer (testEpoch 2) true 200).1 (by decide)

/-- Claim C5: once the guard chain passes, `include` answers
`included = true` unconditionally, and its outcome never depends on the
simulator: servers differing only in their simulator give identical `include`
results for every call. -/
theorem c5_include_unconditional (s : BundleAccessServer) (current : Epoch)
    (revoked : Latch) (tb : Nat) :
    (s.check_all current revoked tb = Except.ok () →
      s.includeBlock current revoked tb = Except.ok { included := true }) ∧
    (∀ f g : BundleSimulator,
      BundleAccessServer.includeBlock { s with simulator := f } current revoked tb
        = BundleAccessServer.includeBlock { s with simulator := g } current revoked tb) := by
  refine ⟨fun h => ?_, fun f g => rfl⟩
  simp [BundleAccessServer.includeBlock, h, Bind.bind, Except.bind, Pure.pure, Except.pure]

/-- Claim C5 witness: on the test server with all guards satisfied (epoch at
the issued seq 1, latch unset, target 105 in window), `include` returns
`included = true`; and swapping the simulator for an always-failing one leaves
the `include` result unchanged. -/
theorem c5_include_unconditional_witness :
    testServer.includeBlock (testEpoch 1) false 105 = Except.ok { included := true } ∧
    BundleAccessServer.includeBlock { testServer with simulator := mockSimulator }
        (testEpoch 1) false 105
      = BundleAccessServer.includeBlock
          { testServer with simulator := fun _ _ => Except.error (RpcError.failed "boom") }
          (testEpoch 1) false 105 :=
  ⟨(c5_include_unconditional testServer (testEpoch 1) false 105).1 rfl,
   (c5_include_unconditional testServer (testEpoch 1) false 105).2 mockSimulator
     (fun _ _ => Except.error (RpcError.failed "boom"))⟩

/-- Claim C6: with the guard chain satisfied, `simulate` dispatches the
server's owned bundle and the target block to the simulator; on simulator
success the four result fields are copied verbatim into the response, and on
simulator failure the call fails with the simulator's own error. -/
theorem c6_simulate_verbatim (s : BundleAccessServer) (current : Epoch)
    (revoked : Latch) (tb : Nat)
    (hok : s.check_all current revoked tb = Except.ok ()) :
    (∀ r : SimResult, s.simulator s.bundle tb = Except.ok r →
      s.simulate current revoked tb
        = Except.ok { gas_used := r.gas_used, success := r.success,
                      state_root := r.state_root, revert_reason := r.revert_reason }) ∧
    (∀ e : RpcError, s.simulator s.bundle tb = Except.error e →
      s.simulate current revoked tb = Except.error e) := by
  constructor
  · intro r hr
    simp [BundleAccessServer.simulate, hok, hr, Bind.bind, Except.bind, Pure.pure, Except.pure]
  · intro e he
    simp [BundleAccessServer.simulate, hok, he, Bind.bind, Except.bind]

/-- Claim C6 witness: on the test server with all guards satisfied, `simulate`
at target 105 returns exactly the mock simulator's fields: 21000 gas, success,
the 32-byte 0xab state root, empty revert reason. -/
theorem c6_simulate_verbatim_witness :
    testServer.simulate (testEpoch 1) false 105
      = Except.ok { gas_used := 21000, success := true,
                    state_root := List.replicate 32 171, revert_reason := "" } :=
  (c6_simulate_verbatim testServer (testEpoch 1) false 105 rfl).1
    { gas_used := 21000, success := true,
      state_root := List.replicate 32 171, revert_reason := "" } rfl

/-- Claim C8: every guard failure carries its error kind as a short tag that
is a string prefix of the failure message: staleEpoch for the epoch guard,
revoked for the revocation guard, blockOutOfWindow for the window guard; and
any failure of the composite chain carries one of the three tags as a prefix. -/
theorem c8_errors_carry_kind_tag (s : BundleAccessServer) (current : Epoch)
    (revoked : Latch) (tb : Nat) (e : RpcError) :
    (s.epoch_guard.check current = Except.error e → taggedWith "staleEpoch" e) ∧
    (RevocationGuard.check revoked = Except.error e → taggedWith "revoked" e) ∧
    (s.block_window.check tb = Except.error e → taggedWith "blockOutOfWindow" e) ∧
    (s.check_all current revoked tb = Except.error e →
      taggedWith "staleEpoch" e ∨ taggedWith "revoked" e ∨ taggedWith "blockOutOfWindow" e) := by
  refine ⟨?_, ?_, ?_, ?_⟩
  · rw [EpochGuard.check]
    split
    · intro h
      exact absurd h (by simp)
    · intro h
      simp only [Except.error.injEq] at h
      exact h ▸ staleEpochMsg_tagged _ _
  · rw [RevocationGuard.check]
    split
    · intro h
      simp only [Except.error.injEq] at h
      exact h ▸ revokedMsg_tagged
    · intro h
      exact absurd h (by simp)
  · rw [BlockWindowGuard.check]
    split
    · intro h
      simp only [Except.error.injEq] at h
      exact h ▸ blockOutOfWindowMsg_tagged _ _ _
    · intro h
      exact absurd h (by simp)
  · intro h
    by_cases h1 : current.seq = s.epoch_guard.issued_seq
    · cases revoked with
      | true =>
          rw [check_all_revoked s current tb h1] at h
          simp only [Except.error.injEq] at h
          exact Or.inr (Or.inl (h ▸ revokedMsg_tagged))
      | false =>
          by_cases h3 : tb < s.block_window.valid_from ∨ tb > s.block_window.valid_until
          · rw [check_all_window s current tb h1 h3] at h
            simp only [Except.error.injEq] at h
            exact Or.inr (Or.inr (h ▸ blockOutOfWindowMsg_tagged _ _ _))
          · rw [check_all_ok s current tb h1 h3] at h
            exact absurd h (by simp)
    · rw [check_all_stale s current revoked tb h1] at h
      simp only [Except.error.injEq] at h
      exact Or.inl (h ▸ staleEpochMsg_tagged _ _)

/-- Claim C8 witness: the out-of-window failure of the test server's window
guard at target 200 carries the blockOutOfWindow tag as a prefix of its
message. -/
theorem c8_errors_carry_kind_tag_witness :
    taggedWith "blockOutOfWindow" (blockOutOfWindowMsg 200 100 110) :=
  (c8_errors_carry_kind_tag testServer (testEpoch 1) false 200
    (blockOutOfWindowMsg 200 100 110)).2.2.1 rfl

/-- Claim C10: neither `BlockWindowGuard` construction nor `bundle_membrane`
validates the window: a membrane minted with an inverted window
(valid_until < valid_from) grafts a grant carrying exactly those bounds, its
window guard rejects every target with the blockOutOfWindow error, every
`simulate` and `include` call on the grant fails whatever the epoch and latch
state, and whenever the other two guards pass the surfaced error is the
blockOutOfWindow error. -/
theorem c10_inverted_window_rejects_all (bundle : BundleSpec) (vf vu : Nat)
    (pk : List Nat) (sim : BundleSimulator) (current observed : Epoch)
    (revoked : Latch) (tb : Nat) (h : vu < vf) :
    (((bundle_membrane bundle vf vu pk sim).2.graft current).bundle_access.block_window
        = { valid_from := vf, valid_until := vu }) ∧
    (((bundle_membrane bundle vf vu pk sim).2.graft current).bundle_access.block_window.check tb
        = Except.error (blockOutOfWindowMsg tb vf vu)) ∧
    (∃ e, ((bundle_membrane bundle vf vu pk sim).2.graft current).bundle_access.simulate
        observed revoked tb = Except.error e) ∧
    (∃ e, ((bundle_membrane bundle vf vu pk sim).2.graft current).bundle_access.includeBlock
        observed revoked tb = Except.error e) ∧
    (observed.seq = current.seq → revoked = false →
      ((bundle_membrane bundle vf vu pk sim).2.graft current).bundle_access.simulate
          observed revoked tb = Except.error (blockOutOfWindowMsg tb vf vu) ∧
      ((bundle_membrane bundle vf vu pk sim).2.graft current).bundle_access.includeBlock
          observed revoked tb = Except.error (blockOutOfWindowMsg tb vf vu)) := by
  have hcond : tb < vf ∨ tb > vu := by omega
  refine ⟨rfl, by simp [BlockWindowGuard.check, hcond, bundle_membrane,
    MembraneServer.graft, BundleGrantBuilder.build], ?_, ?_, fun h1 h2 => ?_⟩
  · by_cases h1 : observed.seq = current.seq
    · cases revoked with
      | true =>
          exact ⟨revokedMsg, simulate_propagates_guard_error _ _ _ _ _
            (check_all_revoked _ observed tb h1)⟩
      | false =>
          exact ⟨blockOutOfWindowMsg tb vf vu, simulate_propagates_guard_error _ _ _ _ _
            (check_all_window _ observed tb h1 hcond)⟩
    · exact ⟨staleEpochMsg current.seq observed.seq, simulate_propagates_guard_error _ _ _ _ _
        (check_all_stale _ observed revoked tb h1)⟩
  · by_cases h1 : observed.seq = current.seq
    · cases revoked with
      | true =>
          exact ⟨revokedMsg, includeBlock_propagates_guard_error _ _ _ _ _
            (check_all_revoked _ observed tb h1)⟩
      | false =>
          exact ⟨blockOutOfWindowMsg tb vf vu, includeBlock_propagates_guard_error _ _ _ _ _
            (check_all_window _ observed tb h1 hcond)⟩
    · exact ⟨staleEpochMsg current.seq observed.seq, includeBlock_propagates_guard_error _ _ _ _ _
        (check_all_stale _ observed revoked tb h1)⟩
  · subst h2
    have hc := check_all_window
      ((bundle_membrane bundle vf vu pk sim).2.graft current).bundle_access observed tb h1 hcond
    exact ⟨simulate_propagates_guard_error _ _ _ _ _ hc,
      includeBlock_propagates_guard_error _ _ _ _ _ hc⟩

/-- Claim C10 witness: a membrane minted with the inverted window 110..100
grafts at seq 1; with the epoch current and latch unset, `simulate` and
`include` at target 105 both fail with the blockOutOfWindow error. -/
theorem c10_inverted_window_rejects_all_witness :
    ((bundle_membrane { txs := [[1, 2]] } 110 100 [] mockSimulator).2.graft
        (testEpoch 1)).bundle_access.simulate (testEpoch 1) false 105
      = Except.error (blockOutOfWindowMsg 105 110 100) ∧
    ((bundle_membrane { txs := [[1, 2]] } 110 100 [] mockSimulator).2.graft
        (testEpoch 1)).bundle_access.includeBlock (testEpoch 1) false 105
      = Except.error (blockOutOfWindowMsg 105 110 100) :=
  (c10_inverted_window_rejects_all { txs := [[1, 2]] } 110 100 [] mockSimulator
    (testEpoch 1) (testEpoch 1) false 105 (by decide)).2.2.2.2 rfl rfl

end Membrane
